import Mathlib

/-!
Shallow embedding of the MERA-explorer GRIB utilities
(`mera_explorer/gribs.py` and `mera_explorer/utils.py`).

Strings are modelled with Lean `String`; the Python string primitives the
source relies on (`str.split`, `str.join`, `os.path.basename`, `str.zfill`,
`int(...)`, `str(...)`) are embedded as executable functions over the
underlying character lists.  Python integers are `Int` (level values may be
negative in principle), calendar instants are a record mirroring
`datetime.datetime`, and any code path that can raise is an `Except`.
-/

namespace Mera

/-! ## Python string primitives -/

/-- Decimal digit character for a value below ten (rendering of `str(int)`). -/
def digitChar : Nat → Char
  | 0 => '0'
  | 1 => '1'
  | 2 => '2'
  | 3 => '3'
  | 4 => '4'
  | 5 => '5'
  | 6 => '6'
  | 7 => '7'
  | 8 => '8'
  | _ => '9'

/-- Decimal digits of a natural number, most significant first.
The fuel argument is structural; any fuel above the value itself is enough. -/
def natDigitsAux : Nat → Nat → List Char
  | 0, _ => []
  | fuel + 1, n =>
    if n < 10 then [digitChar n]
    else natDigitsAux fuel (n / 10) ++ [digitChar (n % 10)]

/-- Python `str(n)` for a natural number. -/
def natStr (n : Nat) : String :=
  String.mk (natDigitsAux (n + 1) n)

/-- Python `str(i)` for an integer. -/
def intStr (i : Int) : String :=
  if i < 0 then "-" ++ natStr i.natAbs else natStr i.toNat

/-- Accumulating decimal reader; fails on the first non-digit character. -/
def digitsValAux : Nat → List Char → Option Nat
  | acc, [] => some acc
  | acc, c :: rest =>
    if c.isDigit then digitsValAux (acc * 10 + (c.toNat - 48)) rest else none

/-- Value of a non-empty all-digit character list, `none` otherwise. -/
def digitsValOpt (l : List Char) : Option Nat :=
  if l = [] then none else digitsValAux 0 l

/-- Character-level core of `pyInt`. -/
def pyIntCh : List Char → Option Int
  | [] => none
  | c :: rest =>
    if c = '-' then (digitsValOpt rest).map (fun n => -(n : Int))
    else if c = '+' then (digitsValOpt rest).map (fun n => (n : Int))
    else (digitsValOpt (c :: rest)).map (fun n => (n : Int))

/-- Python `int(s)` on an optionally signed decimal string: `some` value on
success, `none` where the source would raise `ValueError`. -/
def pyInt (s : String) : Option Int :=
  pyIntCh s.toList

/-- Boolean test that `pat` is a prefix of `l`. -/
def isPre : List Char → List Char → Bool
  | [], _ => true
  | _ :: _, [] => false
  | a :: as, b :: bs => if a = b then isPre as bs else false

/-- Core of Python `str.split(sep)` for a non-empty separator: leftmost,
non-overlapping matches, keeping empty fields.  The fuel argument is
structural; calling it with the length of the list reproduces the split. -/
def splitAux (sep : List Char) : Nat → List Char → List (List Char)
  | _, [] => [[]]
  | 0, l => [l]
  | fuel + 1, c :: rest =>
    if isPre sep (c :: rest) then
      [] :: splitAux sep fuel (List.drop (sep.length - 1) rest)
    else
      match splitAux sep fuel rest with
      | [] => [[c]]
      | g :: gs => (c :: g) :: gs

/-- Python `s.split(sep)` for a non-empty separator string. -/
def pySplitOn (sep s : String) : List String :=
  (splitAux sep.toList s.toList.length s.toList).map String.mk

/-- Character-level `sep.join`. -/
def joinChL (sep : List Char) : List (List Char) → List Char
  | [] => []
  | [x] => x
  | x :: xs => x ++ sep ++ joinChL sep xs

/-- Python `sep.join(xs)`; with separator "/" it also models
`os.path.join` on the relative components the source feeds it. -/
def pyJoinS (sep : String) (xs : List String) : String :=
  String.mk (joinChL sep.toList (xs.map String.toList))

/-- Character-level `os.path.basename`: everything after the last slash. -/
def basenameCh (l : List Char) : List Char :=
  (l.reverse.takeWhile (fun c => c ≠ '/')).reverse

/-- Python `os.path.basename` (POSIX). -/
def basename (s : String) : String :=
  String.mk (basenameCh s.toList)

/-- Python `s.zfill(2)` on the unsigned decimal strings the source feeds it. -/
def zfill2 (s : String) : String :=
  if 2 ≤ s.length then s else String.mk (List.replicate (2 - s.length) '0' ++ s.toList)

/-! ## Data model -/

deriving instance DecidableEq for Except

/-- The GRIB1 identifier 4-tuple (IOP, ITL, LEV, TRI). -/
def Grib1Id := Int × Int × Int × Int

instance : DecidableEq Grib1Id := by
  unfold Grib1Id
  infer_instance

/-- Mirror of `datetime.datetime` restricted to the fields the source reads
(minute precision; the source never manipulates seconds). -/
structure PyDateTime where
  year : Nat
  month : Nat
  day : Nat
  hour : Nat
  minute : Nat
deriving DecidableEq

/-- Gregorian leap-year rule used by `datetime`. -/
def isLeap (y : Nat) : Bool :=
  y % 4 = 0 && (y % 100 ≠ 0 || y % 400 = 0)

/-- Length of a month in the proleptic Gregorian calendar. -/
def daysInMonth (y m : Nat) : Nat :=
  if m = 2 then (if isLeap y then 29 else 28)
  else if m = 4 ∨ m = 6 ∨ m = 9 ∨ m = 11 then 30
  else 31

/-- The instants `datetime.datetime` can represent. -/
def PyDateTime.Valid (t : PyDateTime) : Prop :=
  1 ≤ t.year ∧ t.year ≤ 9999 ∧ 1 ≤ t.month ∧ t.month ≤ 12 ∧
    1 ≤ t.day ∧ t.day ≤ daysInMonth t.year t.month ∧ t.hour ≤ 23 ∧ t.minute ≤ 59

instance (t : PyDateTime) : Decidable t.Valid := by
  unfold PyDateTime.Valid
  infer_instance

/-- `t - datetime.timedelta(hours=3)` on a valid instant (calendar-exact,
as Python's datetime arithmetic is). -/
def sub3h (t : PyDateTime) : PyDateTime :=
  if 3 ≤ t.hour then
    { t with hour := t.hour - 3 }
  else if 2 ≤ t.day then
    { t with day := t.day - 1, hour := t.hour + 21 }
  else if 2 ≤ t.month then
    { t with month := t.month - 1, day := daysInMonth t.year (t.month - 1), hour := t.hour + 21 }
  else
    { year := t.year - 1, month := 12, day := 31, hour := t.hour + 21, minute := t.minute }

/-- `datetime.datetime(y, m, d)`: validates its arguments as the constructor
does, raising `ValueError` out of range. -/
def mk_datetime (y m d : Int) : Except String PyDateTime :=
  if 1 ≤ y ∧ y ≤ 9999 ∧ 1 ≤ m ∧ m ≤ 12 ∧ 1 ≤ d ∧ d ≤ (daysInMonth y.toNat m.toNat : Int) then
    Except.ok ⟨y.toNat, m.toNat, d.toNat, 0, 0⟩
  else
    Except.error "ValueError: date value out of range"

/-! ## Static tables (`gribs.py`) -/

/-- `cfname_to_default_grib1id`: CF standard name to default (IOP, ITL, LEV, TRI). -/
def cfname_to_default_grib1id : List (String × Grib1Id) := [
  ("air_pressure",                                     (1, 105, 0, 0)),
  ("geopotential",                                     (6, 105, 0, 0)),
  ("geopotential_height",                              (7, 100, 850, 0)),
  ("air_temperature",                                  (11, 105, 2, 0)),
  ("virtual_temperature",                              (12, 105, 2, 0)),
  ("air_potential_temperature",                        (13, 105, 2, 0)),
  ("wet_bulb_potential_temperature",                   (14, 105, 2, 0)),
  ("maximum_temperature",                              (15, 105, 2, 2)),
  ("minimum_temperature",                              (16, 105, 2, 2)),
  ("dew_point_temperature",                            (17, 105, 0, 0)),
  ("visibility_in_air",                                (20, 105, 0, 0)),
  ("wind_from_direction",                              (31, 105, 10, 0)),
  ("wind_speed",                                       (32, 105, 10, 0)),
  ("eastward_wind",                                    (33, 105, 10, 0)),
  ("northward_wind",                                   (34, 105, 10, 0)),
  ("upward_air_velocity",                              (40, 100, 850, 0)),
  ("atmosphere_absolute_vorticity",                    (41, 100, 850, 0)),
  ("atmosphere_relative_vorticity",                    (43, 100, 850, 0)),
  ("divergence_of_wind",                               (44, 100, 850, 0)),
  ("specific_humidity",                                (51, 105, 2, 0)),
  ("relative_humidity",                                (52, 105, 2, 0)),
  ("atmosphere_mass_content_of_water_vapor",           (54, 200, 0, 0)),
  ("atmosphere_cloud_ice_content",                     (54, 200, 0, 0)),
  ("precipitation_amount",                             (61, 105, 0, 4)),
  ("surface_snow_amount",                              (65, 105, 0, 4)),
  ("ocean_mixed_layer_thickness",                      (67, 105, 0, 0)),
  ("cloud_area_fraction",                              (71, 105, 0, 0)),
  ("low_type_cloud_area_fraction",                     (73, 105, 0, 0)),
  ("medium_type_cloud_area_fraction",                  (74, 105, 0, 0)),
  ("high_type_cloud_area_fraction",                    (74, 105, 0, 0)),
  ("atmosphere_mass_content_of_cloud_condensed_water", (76, 200, 0, 0)),
  ("land_binary_mask",                                 (81, 105, 0, 0)),
  ("surface_roughness_length",                         (83, 105, 0, 0)),
  ("surface_albedo",                                   (84, 105, 0, 0)),
  ("vegetation_area_fraction",                         (87, 105, 0, 0)),
  ("surface_net_upward_shortwave_flux",                (111, 105, 0, 4)),
  ("surface_net_upward_longwave_flux",                 (112, 105, 0, 4)),
  ("toa_net_upward_shortwave_flux",                    (113, 8, 0, 4)),
  ("toa_incoming_shortwave_flux",                      (113, 8, 0, 4)),
  ("toa_outgoing_longwave_flux",                       (114, 8, 0, 4)),
  ("net_upward_longwave_flux_in_air",                  (115, 105, 0, 4)),
  ("net_upward_shortwave_flux_in_air",                 (116, 105, 0, 4)),
  ("surface_downwelling_shortwave_flux_in_air",        (117, 105, 0, 4)),
  ("surface_upward_sensible_heat_flux",                (122, 105, 0, 4)),
  ("x_wind_gust",                                      (162, 105, 10, 2)),
  ("y_wind_gust",                                      (163, 105, 10, 2))]

/-- `unit_to_itl`: vertical-level unit to indicator of type of level. -/
def unit_to_itl : List (String × Int) :=
  [("hPa", 100), ("metres", 105), ("kelvin", 20)]

/-! ## Source functions (`gribs.py`) -/

/-- `get_grib1id_from_cfname`: look the base name (before the first `_at_`)
up in the default table, then override ITL and LEV from the level suffix.
Errors mirror the `KeyError` on an unknown base name, the unpacking error
when the suffix does not split into exactly two fields, the `ValueError` of
`int()` on a non-numeric level, and the explicit `ValueError` for an
unknown unit. -/
def get_grib1id_from_cfname (cfname : String) : Except String Grib1Id :=
  let parts := pySplitOn "_at_" cfname
  let base_quantity := parts.headD ""
  match List.lookup base_quantity cfname_to_default_grib1id with
  | none => Except.error ("KeyError: " ++ base_quantity)
  | some (iop, itl, lev, tri) =>
    if 2 ≤ parts.length then
      match pySplitOn "_" (pyJoinS "_at_" (parts.drop 1)) with
      | [vlvl, u] =>
        match List.lookup u unit_to_itl with
        | some itl2 =>
          match pyInt vlvl with
          | some lv => Except.ok (iop, itl2, lv, tri)
          | none => Except.error ("ValueError: invalid literal for int() with base 10: " ++ vlvl)
        | none =>
          if u = "level" then
            Except.ok (iop, (if vlvl = "sea" then 103 else 105), 0, tri)
          else
            Except.error ("Unknown vertical coordinate unit: " ++ u)
      | _ => Except.error "ValueError: values to unpack differ from 2"
    else
      Except.ok (iop, itl, lev, tri)

/-- `get_date_from_gribname`: year and month fields of the file name, as the
first of that month. -/
def get_date_from_gribname (gribname : String) : Except String PyDateTime :=
  match pySplitOn "_" (basename gribname) with
  | [_, _, year, month, _, _, _, _, _] =>
    match pyInt year, pyInt month with
    | some y, some m => mk_datetime y m 1
    | _, _ => Except.error "ValueError: invalid literal for int() with base 10"
  | _ => Except.error "ValueError: values to unpack differ from 9"

/-- `get_grib1id_from_gribname`: the four code fields of the file name,
returned as the raw strings, exactly as the source does. -/
def get_grib1id_from_gribname (gribname : String) :
    Except String (String × String × String × String) :=
  match pySplitOn "_" (basename gribname) with
  | [_, _, _, _, iop, itl, lev, tri, _] => Except.ok (iop, itl, lev, tri)
  | _ => Except.error "ValueError: values to unpack differ from 9"

/-- The `varname` argument of `get_mera_gribname`: either a CF standard name
or a GRIB1 tuple (the source dispatches on `isinstance(varname, str)`). -/
inductive VarName where
  | cf (s : String)
  | code (c : Grib1Id)

/-- Resolution of a `varname` argument to its GRIB1 tuple. -/
def resolveVar : VarName → Except String Grib1Id
  | VarName.cf s => get_grib1id_from_cfname s
  | VarName.code c => Except.ok c

/-- `get_mera_gribname`: assemble
`MERA_PRODYEAR_YYYY_MM_IOP_ITL_LEV_TRI_STREAM`, optionally prefixed by the
nested `mera/IOP/ITL/LEV/TRI` directory path. -/
def get_mera_gribname (varname : VarName) (basetime : PyDateTime)
    (stream : String) (pathfromroot : Bool) : Except String String :=
  match resolveVar varname with
  | Except.error e => Except.error e
  | Except.ok (iop, itl, lev, tri) =>
    let gribname := pyJoinS "_" ["MERA", "PRODYEAR", natStr basetime.year,
      zfill2 (natStr basetime.month), intStr iop, intStr itl, intStr lev, intStr tri, stream]
    if pathfromroot then
      Except.ok (pyJoinS "/" ["mera", intStr iop, intStr itl, intStr lev, intStr tri, gribname])
    else
      Except.ok gribname

/-- `get_mera_gribname_valtime`: for a cumulative variable (TRI = 4) move the
base time three hours before the validity time and use the `FC3hr` stream;
otherwise the base time is the validity time and the stream is `ANALYSIS`.
The error arm mirrors the `OverflowError` of `datetime` subtraction below
`datetime.min`. -/
def get_mera_gribname_valtime (varname : VarName) (valtime : PyDateTime)
    (pathfromroot : Bool) : Except String String :=
  match resolveVar varname with
  | Except.error e => Except.error e
  | Except.ok (_, _, _, tri) =>
    if tri = 4 then
      if valtime.year = 1 ∧ valtime.month = 1 ∧ valtime.day = 1 ∧ valtime.hour < 3 then
        Except.error "OverflowError: date value out of range"
      else
        get_mera_gribname varname (sub3h valtime) "FC3hr" pathfromroot
    else
      get_mera_gribname varname valtime "ANALYSIS" pathfromroot

/-- `expand_pathfromroot`: rebuild the nested path from the code fields
embedded in the file name. -/
def expand_pathfromroot (gribname : String) : Except String String :=
  let g := basename gribname
  match get_grib1id_from_gribname g with
  | Except.error e => Except.error e
  | Except.ok (iop, itl, lev, tri) =>
    Except.ok (pyJoinS "/" ["mera", iop, itl, lev, tri, g])

/-- `list_mera_gribnames`, manifest branch: the manifest is the list of file
names recorded in the `merafiles_*.txt` listing (one per line, surrounding
whitespace already removed by the line reader); entries are kept by the
`keep` criterion, which defaults to starting with "MERA". -/
def list_mera_gribnames (manifest : List String) (keep : Option (String → Bool)) :
    List String :=
  let k := keep.getD (fun it => it.startsWith "MERA")
  manifest.filter k

/-- `subset_present_gribnames`: names both requested and present.  The source
returns `list(set(...) & set(...))` in arbitrary order; the embedding returns
the set itself. -/
def subset_present_gribnames (gribnames manifest : List String) (exclude_bz2 : Bool) :
    Finset String :=
  let fsgribnames :=
    if exclude_bz2 then
      list_mera_gribnames manifest
        (some (fun l => l.startsWith "MERA" && !(l.endsWith ".bz2")))
    else
      list_mera_gribnames manifest none
  let gn := gribnames.map basename
  let gn2 := if exclude_bz2 then gn else gn ++ gn.map (fun fn => fn ++ ".bz2")
  fsgribnames.toFinset ∩ gn2.toFinset

/-- One entry of the `variables` mapping of a variable-set YAML document. -/
structure VarSpec where
  levels : Option (List Int)
  level_unit : Option String
deriving DecidableEq

/-- Keys of the Python dict built from a list (first-insertion order, later
duplicates collapsed). -/
def pyDictKeys (l : List String) : List String :=
  l.foldl (fun acc v => if v ∈ acc then acc else acc ++ [v]) []

/-- `write_variables_to_yaml`: the document written is
`{"variables": {v: {} for v in cfnames}}`; the embedding returns that
mapping (the YAML text layer is external). -/
def write_variables_to_yaml (cfnames : List String) : List (String × VarSpec) :=
  (pyDictKeys cfnames).map (fun v => (v, ⟨none, none⟩))

/-- `read_variables_from_yaml`: expand each entry, producing
`v_at_LEVEL_UNIT` names when levels are present; the `AssertionError` for a
levels list without a unit becomes the error arm. -/
def read_variables_from_yaml : List (String × VarSpec) → Except String (List String)
  | [] => Except.ok []
  | (v, spec) :: rest =>
    match spec.levels with
    | some ls =>
      match spec.level_unit with
      | none => Except.error ("Please provide a unit for the vertical level of " ++ v)
      | some u =>
        match read_variables_from_yaml rest with
        | Except.error e => Except.error e
        | Except.ok tail =>
          Except.ok ((ls.map fun lvl => v ++ "_at_" ++ intStr lvl ++ "_" ++ u) ++ tail)
    | none =>
      match read_variables_from_yaml rest with
      | Except.error e => Except.error e
      | Except.ok tail => Except.ok (v :: tail)

/-! ## Source functions (`utils.py`) -/

/-- `int(body) * scale` with the `ValueError` of `int()` made explicit. -/
def pyIntScaled (body : String) (scale : Int) : Except String Int :=
  match pyInt body with
  | some n => Except.ok (n * scale)
  | none => Except.error ("ValueError: invalid literal for int() with base 10: " ++ body)

/-- `str_to_timedelta`: duration strings such as "3d", "3h", "3m", "3s";
the result is in seconds.  The source's final branch tests for "h" a second
time instead of "s", so "s" falls through to the failure arm; the embedding
keeps that dead branch. -/
def str_to_timedelta (strdelta : String) : Except String Int :=
  match strdelta.toList with
  | [] => Except.error "IndexError: string index out of range"
  | c :: cs =>
    let u := ((c :: cs).getLast (List.cons_ne_nil c cs)).toLower
    let body := String.mk ((c :: cs).dropLast)
    if u = 'd' then pyIntScaled body 86400
    else if u = 'h' then pyIntScaled body 3600
    else if u = 'm' then pyIntScaled body 60
    else if u = 'h' then pyIntScaled body 1
    else Except.error ("Could not infer the format of the date " ++ strdelta)

/-! ## Helper lemmas: strings and characters -/

theorem mk_toList (s : String) : String.mk s.toList = s := rfl

theorem toList_mk (l : List Char) : (String.mk l).toList = l := rfl

theorem toList_append (s t : String) : (s ++ t).toList = s.toList ++ t.toList := rfl

theorem digitChar_isDigit (n : Nat) (h : n < 10) : (digitChar n).isDigit = true := by
  interval_cases n <;> decide

theorem digitChar_toNat (n : Nat) (h : n < 10) : (digitChar n).toNat = 48 + n := by
  interval_cases n <;> decide

theorem isDigit_ne (c : Char) (h : c.isDigit = true) :
    c ≠ '-' ∧ c ≠ '+' ∧ c ≠ '_' ∧ c ≠ '/' := by
  refine ⟨?_, ?_, ?_, ?_⟩ <;> rintro rfl <;> exact absurd h (by decide)

theorem natDigitsAux_ne_nil (fuel : Nat) : ∀ n, n < fuel → natDigitsAux fuel n ≠ [] := by
  induction fuel with
  | zero => intro n h; omega
  | succ f ih =>
    intro n _
    simp only [natDigitsAux]
    split
    · simp
    · simp

theorem natDigitsAux_digits (fuel : Nat) :
    ∀ n, n < fuel → ∀ c ∈ natDigitsAux fuel n, c.isDigit = true := by
  induction fuel with
  | zero => intro n h; omega
  | succ f ih =>
    intro n hn c hc
    simp only [natDigitsAux] at hc
    split at hc
    · rw [List.mem_singleton] at hc
      subst hc
      exact digitChar_isDigit n (by omega)
    · rw [List.mem_append, List.mem_singleton] at hc
      rcases hc with hc | hc
      · exact ih (n / 10) (by omega) c hc
      · subst hc
        exact digitChar_isDigit (n % 10) (by omega)

theorem digitsValAux_append_some {acc v : Nat} {l1 : List Char}
    (h : digitsValAux acc l1 = some v) (l2 : List Char) :
    digitsValAux acc (l1 ++ l2) = digitsValAux v l2 := by
  induction l1 generalizing acc with
  | nil =>
    simp only [digitsValAux, Option.some.injEq] at h
    subst h
    rfl
  | cons c l1 ih =>
    simp only [digitsValAux, List.cons_append] at h ⊢
    split at h
    · rw [if_pos (by assumption)]
      exact ih h
    · exact absurd h (by simp)

theorem digitsValAux_natDigits (fuel : Nat) :
    ∀ n acc, n < fuel →
      digitsValAux acc (natDigitsAux fuel n)
        = some (acc * 10 ^ (natDigitsAux fuel n).length + n) := by
  induction fuel with
  | zero => intro n acc h; omega
  | succ f ih =>
    intro n acc hn
    simp only [natDigitsAux]
    split
    · have hd : (digitChar n).isDigit = true := digitChar_isDigit n (by omega)
      have ht : (digitChar n).toNat = 48 + n := digitChar_toNat n (by omega)
      simp [digitsValAux, hd, ht]
    · have hlt : n / 10 < f := by omega
      rw [digitsValAux_append_some (ih (n / 10) acc hlt)]
      have hd : (digitChar (n % 10)).isDigit = true := digitChar_isDigit (n % 10) (by omega)
      have ht : (digitChar (n % 10)).toNat = 48 + n % 10 := digitChar_toNat (n % 10) (by omega)
      simp only [digitsValAux, hd, if_pos, ht, List.length_append, List.length_singleton]
      congr 1
      have h10 : 48 + n % 10 - 48 = n % 10 := by omega
      rw [h10, pow_succ]
      have hmod : n / 10 * 10 + n % 10 = n := Nat.div_add_mod' n 10
      calc (acc * 10 ^ (natDigitsAux f (n / 10)).length + n / 10) * 10 + n % 10
          = acc * (10 ^ (natDigitsAux f (n / 10)).length * 10) + (n / 10 * 10 + n % 10) := by ring
        _ = acc * (10 ^ (natDigitsAux f (n / 10)).length * 10) + n := by rw [hmod]

theorem digitsValOpt_natDigits (n : Nat) : digitsValOpt (natDigitsAux (n + 1) n) = some n := by
  unfold digitsValOpt
  rw [if_neg (by simpa using natDigitsAux_ne_nil (n + 1) n (by omega))]
  rw [digitsValAux_natDigits (n + 1) n 0 (by omega)]
  simp

theorem pyInt_natStr (n : Nat) : pyInt (natStr n) = some (n : Int) := by
  have hne := natDigitsAux_ne_nil (n + 1) n (by omega)
  obtain ⟨c, cs, hc⟩ : ∃ c cs, natDigitsAux (n + 1) n = c :: cs := by
    cases h : natDigitsAux (n + 1) n with
    | nil => exact absurd h hne
    | cons a l => exact ⟨a, l, rfl⟩
  have hcd : c.isDigit = true := by
    refine natDigitsAux_digits (n + 1) n (by omega) c ?_
    rw [hc]
    exact List.mem_cons_self c cs
  have hne2 := isDigit_ne c hcd
  have hscrut : (natStr n).toList = c :: cs := by
    rw [show (natStr n).toList = natDigitsAux (n + 1) n from rfl, hc]
  rw [pyInt, hscrut, pyIntCh]
  rw [if_neg hne2.1, if_neg hne2.2.1, ← hc, digitsValOpt_natDigits n]
  rfl

theorem pyInt_intStr (i : Int) : pyInt (intStr i) = some i := by
  by_cases hi : i < 0
  · have hscrut : (intStr i).toList = '-' :: natDigitsAux (i.natAbs + 1) i.natAbs := by
      rw [intStr, if_pos hi]
      rfl
    rw [pyInt, hscrut, pyIntCh, if_pos rfl, digitsValOpt_natDigits i.natAbs]
    have hni : -(i.natAbs : Int) = i := by omega
    show some (-(i.natAbs : Int)) = some i
    rw [hni]
  · rw [intStr, if_neg hi, pyInt_natStr]
    congr 1
    omega

theorem natStr_goodChars (n : Nat) : ∀ c ∈ (natStr n).toList, c ≠ '_' ∧ c ≠ '/' := by
  intro c hc
  have hd : c.isDigit = true := by
    refine natDigitsAux_digits (n + 1) n (by omega) c ?_
    exact hc
  exact ⟨(isDigit_ne c hd).2.2.1, (isDigit_ne c hd).2.2.2⟩

theorem intStr_goodChars (i : Int) : ∀ c ∈ (intStr i).toList, c ≠ '_' ∧ c ≠ '/' := by
  intro c hc
  by_cases hi : i < 0
  · rw [intStr, if_pos hi, toList_append] at hc
    rw [List.mem_append] at hc
    rcases hc with hc | hc
    · rw [show ("-" : String).toList = ['-'] from rfl, List.mem_singleton] at hc
      subst hc
      exact ⟨by decide, by decide⟩
    · exact natStr_goodChars _ c hc
  · rw [intStr, if_neg hi] at hc
    exact natStr_goodChars _ c hc

theorem zfill2_goodChars (s : String) (h : ∀ c ∈ s.toList, c ≠ '_' ∧ c ≠ '/') :
    ∀ c ∈ (zfill2 s).toList, c ≠ '_' ∧ c ≠ '/' := by
  intro c hc
  rw [zfill2] at hc
  split at hc
  · exact h c hc
  · rw [toList_mk, List.mem_append] at hc
    rcases hc with hc | hc
    · have := List.eq_of_mem_replicate hc
      subst this
      exact ⟨by decide, by decide⟩
    · exact h c hc

theorem mem_takeWhile_pred (p : Char → Bool) :
    ∀ (l : List Char) (c : Char), c ∈ List.takeWhile p l → p c = true := by
  intro l
  induction l with
  | nil => intro c hc; simp [List.takeWhile] at hc
  | cons a l ih =>
    intro c hc
    cases hpa : p a with
    | true =>
      rw [List.takeWhile, hpa] at hc
      rcases List.mem_cons.mp hc with hc | hc
      · subst hc; exact hpa
      · exact ih c hc
    | false =>
      rw [List.takeWhile, hpa] at hc
      simp at hc

theorem takeWhile_of_all (p : Char → Bool) :
    ∀ (l : List Char), (∀ c ∈ l, p c = true) → List.takeWhile p l = l := by
  intro l
  induction l with
  | nil => intro _; rfl
  | cons a l ih =>
    intro h
    rw [List.takeWhile, h a (List.mem_cons_self a l)]
    rw [ih (fun c hc => h c (List.mem_cons_of_mem a hc))]

theorem basename_goodslash (s : String) : ∀ c ∈ (basename s).toList, c ≠ '/' := by
  intro c hc
  rw [basename, toList_mk, basenameCh, List.mem_reverse] at hc
  have := mem_takeWhile_pred _ _ _ hc
  simpa using this

theorem basename_of_noslash (s : String) (h : ∀ c ∈ s.toList, c ≠ '/') : basename s = s := by
  rw [basename, basenameCh]
  rw [takeWhile_of_all _ _ (fun c hc => by simpa using h c (List.mem_reverse.mp hc))]
  rw [List.reverse_reverse, mk_toList]

theorem basename_idem (s : String) : basename (basename s) = basename s :=
  basename_of_noslash _ (basename_goodslash s)

/-! ## Helper lemmas: split and join -/

theorem joinChL_mem (sep : List Char) :
    ∀ (xs : List (List Char)) (c : Char), c ∈ joinChL sep xs →
      c ∈ sep ∨ ∃ x ∈ xs, c ∈ x := by
  intro xs
  induction xs with
  | nil => intro c hc; simp [joinChL] at hc
  | cons x xs ih =>
    intro c hc
    cases xs with
    | nil =>
      rw [show joinChL sep [x] = x from rfl] at hc
      exact Or.inr ⟨x, List.mem_cons_self x [], hc⟩
    | cons y ys =>
      rw [show joinChL sep (x :: y :: ys) = x ++ sep ++ joinChL sep (y :: ys) from rfl,
        List.append_assoc, List.mem_append] at hc
      rcases hc with hc | hc
      · exact Or.inr ⟨x, List.mem_cons_self x (y :: ys), hc⟩
      · rw [List.mem_append] at hc
        rcases hc with hc | hc
        · exact Or.inl hc
        · rcases ih c hc with hl | ⟨z, hz, hcz⟩
          · exact Or.inl hl
          · exact Or.inr ⟨z, List.mem_cons_of_mem x hz, hcz⟩

theorem splitAux_single_nosep (s : Char) :
    ∀ (l : List Char), s ∉ l → splitAux [s] l.length l = [l] := by
  intro l
  induction l with
  | nil => intro _; simp [splitAux]
  | cons c rest ih =>
    intro h
    have hsc : s ≠ c := fun he => h (he ▸ List.mem_cons_self c rest)
    have hpre : isPre [s] (c :: rest) = false := by
      rw [isPre, if_neg hsc]
    rw [List.length_cons, splitAux, if_neg (by simp [hpre])]
    rw [ih (fun hm => h (List.mem_cons_of_mem c hm))]

theorem splitAux_sep_cons (s : Char) :
    ∀ (x rest : List Char), s ∉ x →
      splitAux [s] (x ++ s :: rest).length (x ++ s :: rest)
        = x :: splitAux [s] rest.length rest := by
  intro x
  induction x with
  | nil =>
    intro rest _
    rw [List.nil_append, List.length_cons, splitAux]
    rw [if_pos (by rw [isPre, if_pos rfl]; rfl)]
    rw [show [s].length - 1 = 0 from rfl, List.drop_zero]
  | cons c x ih =>
    intro rest h
    have hsc : s ≠ c := fun he => h (he ▸ List.mem_cons_self c x)
    have hpre : isPre [s] (c :: (x ++ s :: rest)) = false := by
      rw [isPre, if_neg hsc]
    rw [List.cons_append, List.length_cons, splitAux, if_neg (by simp [hpre])]
    rw [ih rest (fun hm => h (List.mem_cons_of_mem c hm))]

theorem splitAux_join (s : Char) :
    ∀ (xs : List (List Char)), xs ≠ [] → (∀ x ∈ xs, s ∉ x) →
      splitAux [s] (joinChL [s] xs).length (joinChL [s] xs) = xs := by
  intro xs
  induction xs with
  | nil => intro h _; exact absurd rfl h
  | cons x xs ih =>
    intro _ h
    cases xs with
    | nil =>
      rw [show joinChL [s] [x] = x from rfl]
      exact splitAux_single_nosep s x (h x (List.mem_cons_self x []))
    | cons y ys =>
      have hj : joinChL [s] (x :: y :: ys) = x ++ s :: joinChL [s] (y :: ys) := by
        rw [show joinChL [s] (x :: y :: ys) = x ++ [s] ++ joinChL [s] (y :: ys) from rfl,
          List.append_assoc, List.singleton_append]
      rw [hj, splitAux_sep_cons s x _ (h x (List.mem_cons_self x (y :: ys)))]
      rw [ih (by simp) (fun z hz => h z (List.mem_cons_of_mem x hz))]

theorem pySplitOn_joinS (xs : List String) (h0 : xs ≠ [])
    (h : ∀ x ∈ xs, '_' ∉ x.toList) :
    pySplitOn "_" (pyJoinS "_" xs) = xs := by
  rw [pySplitOn, pyJoinS]
  rw [show ("_" : String).toList = ['_'] from rfl, toList_mk]
  rw [splitAux_join '_' (xs.map String.toList) (by simpa using h0)
    (by intro z hz
        rw [List.mem_map] at hz
        obtain ⟨w, hw, rfl⟩ := hz
        exact h w hw)]
  rw [List.map_map]
  have hcomp : String.mk ∘ String.toList = id := funext mk_toList
  rw [hcomp, List.map_id]

theorem pyJoinS_mem (sep : String) (xs : List String) (c : Char)
    (hc : c ∈ (pyJoinS sep xs).toList) :
    c ∈ sep.toList ∨ ∃ x ∈ xs, c ∈ x.toList := by
  rw [pyJoinS, toList_mk] at hc
  rcases joinChL_mem sep.toList (xs.map String.toList) c hc with hl | ⟨z, hz, hcz⟩
  · exact Or.inl hl
  · rw [List.mem_map] at hz
    obtain ⟨w, hw, rfl⟩ := hz
    exact Or.inr ⟨w, hw, hcz⟩

theorem pyJoinS_single (sep x : String) : pyJoinS sep [x] = x := by
  rw [pyJoinS, List.map_singleton, show joinChL sep.toList [x.toList] = x.toList from rfl,
    mk_toList]

/-- The nine fields of a MERA file name have no underscore and no slash, so
`basename` leaves the assembled name alone and splitting on the underscore
recovers the fields. -/
theorem mera_fields_split (y m : Nat) (iop itl lev tri : Int) (stream : String)
    (hstream : ∀ c ∈ stream.toList, c ≠ '_' ∧ c ≠ '/') :
    basename (pyJoinS "_" ["MERA", "PRODYEAR", natStr y, zfill2 (natStr m),
        intStr iop, intStr itl, intStr lev, intStr tri, stream])
      = pyJoinS "_" ["MERA", "PRODYEAR", natStr y, zfill2 (natStr m),
        intStr iop, intStr itl, intStr lev, intStr tri, stream]
    ∧ pySplitOn "_" (pyJoinS "_" ["MERA", "PRODYEAR", natStr y, zfill2 (natStr m),
        intStr iop, intStr itl, intStr lev, intStr tri, stream])
      = ["MERA", "PRODYEAR", natStr y, zfill2 (natStr m),
        intStr iop, intStr itl, intStr lev, intStr tri, stream] := by
  have hgood : ∀ x ∈ ["MERA", "PRODYEAR", natStr y, zfill2 (natStr m),
      intStr iop, intStr itl, intStr lev, intStr tri, stream],
      ∀ c ∈ x.toList, c ≠ '_' ∧ c ≠ '/' := by
    intro x hx
    simp only [List.mem_cons, List.not_mem_nil, or_false] at hx
    rcases hx with rfl | rfl | rfl | rfl | rfl | rfl | rfl | rfl | rfl
    · decide
    · decide
    · exact natStr_goodChars y
    · exact zfill2_goodChars _ (natStr_goodChars m)
    · exact intStr_goodChars iop
    · exact intStr_goodChars itl
    · exact intStr_goodChars lev
    · exact intStr_goodChars tri
    · exact hstream
  constructor
  · refine basename_of_noslash _ ?_
    intro c hc
    rcases pyJoinS_mem "_" _ c hc with hl | ⟨x, hx, hcx⟩
    · rw [show ("_" : String).toList = ['_'] from rfl, List.mem_singleton] at hl
      subst hl
      decide
    · exact (hgood x hx c hcx).2
  · refine pySplitOn_joinS _ (by simp) ?_
    intro x hx hm
    exact (hgood x hx '_' hm).1 rfl

/-- Whether an `Except` computation succeeded. -/
def exceptOk {ε α : Type} : Except ε α → Bool
  | Except.ok _ => true
  | Except.error _ => false

/-! ## Claims -/

set_option maxRecDepth 4000 in
/-- C5: for every scientific name that is a key of the static table
`cfname_to_default_grib1id`, `get_grib1id_from_cfname` on the bare name
returns exactly the 4-tuple stored in the table, unchanged. -/
theorem bare_name_resolution :
    ∀ p ∈ cfname_to_default_grib1id,
      get_grib1id_from_cfname p.1 = Except.ok p.2 := by
  decide

/-- C5 witness: the first table entry, resolved concretely. -/
theorem bare_name_resolution_witness :
    get_grib1id_from_cfname "air_pressure" = Except.ok ((1, 105, 0, 0) : Grib1Id) :=
  bare_name_resolution ("air_pressure", ((1, 105, 0, 0) : Grib1Id)) (by decide)

/-- C4: for a name of the form `base_at_L_u` with `base` in the static table,
the known units hPa, metres and kelvin override the level-type id with 100,
105 and 20 and the level value with the integer `L`; the special unit
"level" gives level-type 103 when `L` is "sea" and 105 otherwise, with level
value 0.  In particular "air_temperature_at_10_metres" resolves to
(11, 105, 10, 0) and "air_pressure_at_sea_level" to (1, 103, 0, 0). -/
theorem level_suffix_override :
    (∀ (cfname base tail L u : String) (iop itl lev tri lvl : Int),
      pySplitOn "_at_" cfname = [base, tail] →
      List.lookup base cfname_to_default_grib1id = some (iop, itl, lev, tri) →
      pySplitOn "_" tail = [L, u] →
      pyInt L = some lvl →
      u ∈ (["hPa", "metres", "kelvin"] : List String) →
      get_grib1id_from_cfname cfname
        = Except.ok (iop, (if u = "hPa" then 100 else if u = "metres" then 105 else 20), lvl, tri))
    ∧ (∀ (cfname base tail L : String) (iop itl lev tri : Int),
      pySplitOn "_at_" cfname = [base, tail] →
      List.lookup base cfname_to_default_grib1id = some (iop, itl, lev, tri) →
      pySplitOn "_" tail = [L, "level"] →
      get_grib1id_from_cfname cfname
        = Except.ok (iop, (if L = "sea" then 103 else 105), 0, tri))
    ∧ get_grib1id_from_cfname "air_temperature_at_10_metres" = Except.ok (11, 105, 10, 0)
    ∧ get_grib1id_from_cfname "air_pressure_at_sea_level" = Except.ok (1, 103, 0, 0) := by
  refine ⟨?_, ?_, by decide, by decide⟩
  · intro cfname base tail L u iop itl lev tri lvl h1 h2 h3 hL hu
    simp only [List.mem_cons, List.not_mem_nil, or_false] at hu
    rcases hu with rfl | rfl | rfl
    · have hlook : List.lookup "hPa" unit_to_itl = some 100 := by decide
      simp [get_grib1id_from_cfname, h1, h2, h3, hL, pyJoinS_single, hlook]
    · have hlook : List.lookup "metres" unit_to_itl = some 105 := by decide
      simp [get_grib1id_from_cfname, h1, h2, h3, hL, pyJoinS_single, hlook]
    · have hlook : List.lookup "kelvin" unit_to_itl = some 20 := by decide
      simp [get_grib1id_from_cfname, h1, h2, h3, hL, pyJoinS_single, hlook]
  · intro cfname base tail L iop itl lev tri h1 h2 h3
    have hlook : List.lookup "level" unit_to_itl = none := by decide
    simp [get_grib1id_from_cfname, h1, h2, h3, pyJoinS_single, hlook]

/-- C4 witness: a pressure-level suffix and a "level"-unit suffix resolved
through the general statements. -/
theorem level_suffix_override_witness :
    get_grib1id_from_cfname "wind_speed_at_850_hPa"
      = Except.ok (32,
        (if ("hPa" : String) = "hPa" then 100 else if ("hPa" : String) = "metres" then 105 else 20),
        850, 0)
    ∧ get_grib1id_from_cfname "air_pressure_at_surface_level"
      = Except.ok (1, (if ("surface" : String) = "sea" then 103 else 105), 0, 0) :=
  ⟨level_suffix_override.1 "wind_speed_at_850_hPa" "wind_speed" "850_hPa" "850" "hPa"
      32 105 10 0 850 (by decide) (by decide) (by decide) (by decide) (by decide),
    level_suffix_override.2.1 "air_pressure_at_surface_level" "air_pressure" "surface_level"
      "surface" 1 105 0 0 (by decide) (by decide) (by decide)⟩

/-- C6: for a name of the form `base_at_L_u` with `base` in the table and the
suffix splitting into exactly the two fields `L` and `u` (with `L` parsing as
an integer whenever `u` is one of the numeric units), resolution succeeds if
and only if `u` is hPa, metres, kelvin or level. -/
theorem unsupported_unit_error (cfname base tail L u : String) (iop itl lev tri : Int)
    (h1 : pySplitOn "_at_" cfname = [base, tail])
    (h2 : List.lookup base cfname_to_default_grib1id = some (iop, itl, lev, tri))
    (h3 : pySplitOn "_" tail = [L, u])
    (h4 : u ∈ (["hPa", "metres", "kelvin"] : List String) → (pyInt L).isSome = true) :
    exceptOk (get_grib1id_from_cfname cfname) = true
      ↔ u ∈ (["hPa", "metres", "kelvin", "level"] : List String) := by
  by_cases hu1 : u = "hPa"
  · subst hu1
    obtain ⟨lv, hlv⟩ := Option.isSome_iff_exists.mp (h4 (by simp))
    have hlook : List.lookup "hPa" unit_to_itl = some 100 := by decide
    simp [get_grib1id_from_cfname, h1, h2, h3, hlv, pyJoinS_single, hlook, exceptOk]
  by_cases hu2 : u = "metres"
  · subst hu2
    obtain ⟨lv, hlv⟩ := Option.isSome_iff_exists.mp (h4 (by simp))
    have hlook : List.lookup "metres" unit_to_itl = some 105 := by decide
    simp [get_grib1id_from_cfname, h1, h2, h3, hlv, pyJoinS_single, hlook, exceptOk]
  by_cases hu3 : u = "kelvin"
  · subst hu3
    obtain ⟨lv, hlv⟩ := Option.isSome_iff_exists.mp (h4 (by simp))
    have hlook : List.lookup "kelvin" unit_to_itl = some 20 := by decide
    simp [get_grib1id_from_cfname, h1, h2, h3, hlv, pyJoinS_single, hlook, exceptOk]
  by_cases hu4 : u = "level"
  · subst hu4
    have hlook : List.lookup "level" unit_to_itl = none := by decide
    simp [get_grib1id_from_cfname, h1, h2, h3, pyJoinS_single, hlook, exceptOk]
  · have hlook : List.lookup u unit_to_itl = none := by
      have b1 : (u == "hPa") = false := beq_eq_false_iff_ne.mpr hu1
      have b2 : (u == "metres") = false := beq_eq_false_iff_ne.mpr hu2
      have b3 : (u == "kelvin") = false := beq_eq_false_iff_ne.mpr hu3
      simp [List.lookup, unit_to_itl, b1, b2, b3]
    simp [get_grib1id_from_cfname, h1, h2, h3, pyJoinS_single, hlook, exceptOk,
      hu1, hu2, hu3, hu4]

/-- C6 witness: an unrecognized unit "feet" fails, through the general
statement. -/
theorem unsupported_unit_error_witness :
    (exceptOk (get_grib1id_from_cfname "air_temperature_at_5_feet") = true
      ↔ ("feet" : String) ∈ (["hPa", "metres", "kelvin", "level"] : List String)) :=
  unsupported_unit_error "air_temperature_at_5_feet" "air_temperature" "5_feet" "5" "feet"
    11 105 2 0 (by decide) (by decide) (by decide) (by decide)

/-- C1: for a variable whose resolved code has time-range indicator 4,
`get_mera_gribname_valtime` subtracts exactly three hours from the validity
instant and selects the FC3hr stream; resolving validity time
`y-01-01 00:00` stamps the file name with December of `y - 1`. -/
theorem cumulative_valtime_resolution (cfname : String) (iop itl lev : Int)
    (h : get_grib1id_from_cfname cfname = Except.ok (iop, itl, lev, 4)) :
    (∀ (t : PyDateTime) (pfr : Bool), t.Valid →
      ¬(t.year = 1 ∧ t.month = 1 ∧ t.day = 1 ∧ t.hour < 3) →
      get_mera_gribname_valtime (VarName.cf cfname) t pfr
        = get_mera_gribname (VarName.cf cfname) (sub3h t) "FC3hr" pfr)
    ∧ (∀ y : Nat, 2 ≤ y → y ≤ 9999 →
      get_mera_gribname_valtime (VarName.cf cfname) ⟨y, 1, 1, 0, 0⟩ false
        = get_mera_gribname (VarName.cf cfname) ⟨y - 1, 12, 31, 21, 0⟩ "FC3hr" false
      ∧ get_mera_gribname_valtime (VarName.cf cfname) ⟨y, 1, 1, 0, 0⟩ false
        = Except.ok (pyJoinS "_" ["MERA", "PRODYEAR", natStr (y - 1), "12",
            intStr iop, intStr itl, intStr lev, "4", "FC3hr"])) := by
  constructor
  · intro t pfr _ hov
    simp [get_mera_gribname_valtime, resolveVar, h, hov]
  · intro y h2 _
    have hy1 : ¬y = 1 := by omega
    have hsub : sub3h ⟨y, 1, 1, 0, 0⟩ = ⟨y - 1, 12, 31, 21, 0⟩ := by
      simp [sub3h]
    have hz : zfill2 (natStr 12) = "12" := by decide
    have h4s : intStr 4 = "4" := by decide
    constructor
    · simp [get_mera_gribname_valtime, resolveVar, h, hy1, hsub]
    · simp [get_mera_gribname_valtime, get_mera_gribname, resolveVar, h, hy1, hsub, hz, h4s]

/-- C1 witness: `precipitation_amount` (TRI 4) resolved at 2017-01-01 00:00
is stamped 2016 December on the FC3hr stream. -/
theorem cumulative_valtime_resolution_witness :
    get_grib1id_from_cfname "precipitation_amount" = Except.ok (61, 105, 0, 4)
    ∧ get_mera_gribname_valtime (VarName.cf "precipitation_amount") ⟨2017, 1, 1, 0, 0⟩ false
        = Except.ok (pyJoinS "_" ["MERA", "PRODYEAR", natStr 2016, "12",
            intStr 61, intStr 105, intStr 0, "4", "FC3hr"]) :=
  ⟨by decide,
    ((cumulative_valtime_resolution "precipitation_amount" 61 105 0 (by decide)).2 2017
      (by omega) (by omega)).2⟩

/-- C3: for a variable whose resolved code has a time-range indicator other
than 4, `get_mera_gribname_valtime` selects the ANALYSIS stream and the file
name carries the validity instant's own year and month. -/
theorem analysis_valtime_resolution (cfname : String) (iop itl lev tri : Int)
    (h : get_grib1id_from_cfname cfname = Except.ok (iop, itl, lev, tri)) (htri : tri ≠ 4)
    (t : PyDateTime) (ht : t.Valid) (pfr : Bool) :
    get_mera_gribname_valtime (VarName.cf cfname) t pfr
      = get_mera_gribname (VarName.cf cfname) t "ANALYSIS" pfr
    ∧ get_mera_gribname_valtime (VarName.cf cfname) t false
      = Except.ok (pyJoinS "_" ["MERA", "PRODYEAR", natStr t.year, zfill2 (natStr t.month),
          intStr iop, intStr itl, intStr lev, intStr tri, "ANALYSIS"]) := by
  constructor
  · simp [get_mera_gribname_valtime, resolveVar, h, htri]
  · simp [get_mera_gribname_valtime, get_mera_gribname, resolveVar, h, htri]

/-- C3 witness: `air_pressure_at_sea_level` (TRI 0) resolved at a concrete
instant keeps that instant's year and month on the ANALYSIS stream. -/
theorem analysis_valtime_resolution_witness :
    get_grib1id_from_cfname "air_pressure_at_sea_level" = Except.ok (1, 103, 0, 0)
    ∧ (get_mera_gribname_valtime (VarName.cf "air_pressure_at_sea_level")
          ⟨2017, 10, 16, 18, 0⟩ false
        = get_mera_gribname (VarName.cf "air_pressure_at_sea_level")
          ⟨2017, 10, 16, 18, 0⟩ "ANALYSIS" false
      ∧ get_mera_gribname_valtime (VarName.cf "air_pressure_at_sea_level")
          ⟨2017, 10, 16, 18, 0⟩ false
        = Except.ok (pyJoinS "_" ["MERA", "PRODYEAR", natStr 2017, zfill2 (natStr 10),
            intStr 1, intStr 103, intStr 0, intStr 0, "ANALYSIS"])) :=
  ⟨by decide,
    analysis_valtime_resolution "air_pressure_at_sea_level" 1 103 0 0 (by decide)
      (by decide) ⟨2017, 10, 16, 18, 0⟩ (by decide) false⟩

theorem one_le_daysInMonth (y m : Nat) : 1 ≤ daysInMonth y m := by
  unfold daysInMonth
  split
  · split <;> omega
  · split <;> omega

/-- C2: building an archive name from any integer code 4-tuple, a year in
1981..2099, a month in 1..12 and one of the three streams, then parsing it
back, recovers the code fields (as their decimal renderings, which decode to
the same integers) and the year and month. -/
theorem gribname_roundtrip (iop itl lev tri : Int) (year month : Nat) (stream : String)
    (h1 : 1981 ≤ year) (h2 : year ≤ 2099) (h3 : 1 ≤ month) (h4 : month ≤ 12)
    (h5 : stream ∈ (["ANALYSIS", "FC3hr", "FC33hr"] : List String)) :
    get_mera_gribname (VarName.code (iop, itl, lev, tri)) ⟨year, month, 1, 0, 0⟩ stream false
      = Except.ok (pyJoinS "_" ["MERA", "PRODYEAR", natStr year, zfill2 (natStr month),
          intStr iop, intStr itl, intStr lev, intStr tri, stream])
    ∧ get_grib1id_from_gribname (pyJoinS "_" ["MERA", "PRODYEAR", natStr year,
          zfill2 (natStr month), intStr iop, intStr itl, intStr lev, intStr tri, stream])
      = Except.ok (intStr iop, intStr itl, intStr lev, intStr tri)
    ∧ (pyInt (intStr iop), pyInt (intStr itl), pyInt (intStr lev), pyInt (intStr tri))
      = (some iop, some itl, some lev, some tri)
    ∧ get_date_from_gribname (pyJoinS "_" ["MERA", "PRODYEAR", natStr year,
          zfill2 (natStr month), intStr iop, intStr itl, intStr lev, intStr tri, stream])
      = Except.ok ⟨year, month, 1, 0, 0⟩ := by
  have hstream : ∀ c ∈ stream.toList, c ≠ '_' ∧ c ≠ '/' := by
    simp only [List.mem_cons, List.not_mem_nil, or_false] at h5
    rcases h5 with rfl | rfl | rfl <;> decide
  obtain ⟨hb, hsplit⟩ := mera_fields_split year month iop itl lev tri stream hstream
  refine ⟨?_, ?_, ?_, ?_⟩
  · simp [get_mera_gribname, resolveVar]
  · simp only [get_grib1id_from_gribname, hb, hsplit]
  · simp [pyInt_intStr]
  · simp only [get_date_from_gribname, hb, hsplit]
    have hmy : pyInt (natStr year) = some (year : Int) := pyInt_natStr year
    have hmm : pyInt (zfill2 (natStr month)) = some (month : Int) := by
      interval_cases month <;> decide
    rw [hmy, hmm]
    have hdm := one_le_daysInMonth year month
    simp only [mk_datetime, Int.toNat_natCast]
    rw [if_pos ⟨by omega, by omega, by omega, by omega, by omega, by exact_mod_cast hdm⟩]
    simp

/-- C2 witness: the sea-level-pressure code round-trips at 2017-10 on the
ANALYSIS stream. -/
theorem gribname_roundtrip_witness :
    get_mera_gribname (VarName.code (1, 103, 0, 0)) ⟨2017, 10, 1, 0, 0⟩ "ANALYSIS" false
      = Except.ok (pyJoinS "_" ["MERA", "PRODYEAR", natStr 2017, zfill2 (natStr 10),
          intStr 1, intStr 103, intStr 0, intStr 0, "ANALYSIS"])
    ∧ get_grib1id_from_gribname (pyJoinS "_" ["MERA", "PRODYEAR", natStr 2017,
          zfill2 (natStr 10), intStr 1, intStr 103, intStr 0, intStr 0, "ANALYSIS"])
      = Except.ok (intStr 1, intStr 103, intStr 0, intStr 0)
    ∧ (pyInt (intStr 1), pyInt (intStr 103), pyInt (intStr 0), pyInt (intStr 0))
      = (some 1, some 103, some 0, some 0)
    ∧ get_date_from_gribname (pyJoinS "_" ["MERA", "PRODYEAR", natStr 2017,
          zfill2 (natStr 10), intStr 1, intStr 103, intStr 0, intStr 0, "ANALYSIS"])
      = Except.ok ⟨2017, 10, 1, 0, 0⟩ :=
  gribname_roundtrip 1 103 0 0 2017 10 "ANALYSIS"
    (by omega) (by omega) (by omega) (by omega) (by decide)

/-- C10: expanding the flat file name after the fact agrees with building the
nested path directly: the `mera/IOP/ITL/LEV/TRI` components are exactly the
fields embedded in the name. -/
theorem expand_pathfromroot_agrees (iop itl lev tri : Int) (t : PyDateTime) (stream : String)
    (hs : stream ∈ (["ANALYSIS", "FC3hr", "FC33hr"] : List String)) :
    (get_mera_gribname (VarName.code (iop, itl, lev, tri)) t stream false).bind
        expand_pathfromroot
      = get_mera_gribname (VarName.code (iop, itl, lev, tri)) t stream true := by
  have hstream : ∀ c ∈ stream.toList, c ≠ '_' ∧ c ≠ '/' := by
    simp only [List.mem_cons, List.not_mem_nil, or_false] at hs
    rcases hs with rfl | rfl | rfl <;> decide
  obtain ⟨hb, hsplit⟩ :=
    mera_fields_split t.year t.month iop itl lev tri stream hstream
  simp only [get_mera_gribname, resolveVar, Except.bind, if_pos, if_neg, Bool.false_eq_true,
    ite_false, ite_true]
  rw [expand_pathfromroot]
  simp only [hb, get_grib1id_from_gribname, hsplit]

/-- C10 witness: agreement at a concrete code, instant and stream. -/
theorem expand_pathfromroot_agrees_witness :
    (get_mera_gribname (VarName.code (11, 105, 2, 0)) ⟨2017, 9, 16, 18, 0⟩ "ANALYSIS" false).bind
        expand_pathfromroot
      = get_mera_gribname (VarName.code (11, 105, 2, 0)) ⟨2017, 9, 16, 18, 0⟩ "ANALYSIS" true :=
  expand_pathfromroot_agrees 11 105 2 0 ⟨2017, 9, 16, 18, 0⟩ "ANALYSIS" (by decide)

theorem subset_present_gribnames_def (X M : List String) :
    subset_present_gribnames X M true
      = (M.filter (fun l => l.startsWith "MERA" && !(l.endsWith ".bz2"))).toFinset
          ∩ (X.map basename).toFinset := by
  simp [subset_present_gribnames, list_mera_gribnames]

/-- C7: with `exclude_bz2 = true` the filtered set is a subset of the
basenames of the requested names and of the manifest, and filtering the
result again against the same manifest gives the same set back. -/
theorem filter_present_subset_idem (A M : List String) :
    subset_present_gribnames A M true ⊆ (A.map basename).toFinset
    ∧ subset_present_gribnames A M true ⊆ M.toFinset
    ∧ subset_present_gribnames (subset_present_gribnames A M true).toList M true
        = subset_present_gribnames A M true := by
  refine ⟨?_, ?_, ?_⟩
  · rw [subset_present_gribnames_def]
    exact Finset.inter_subset_right
  · rw [subset_present_gribnames_def]
    intro x hx
    have hx' := Finset.mem_inter.mp hx
    rw [List.mem_toFinset] at hx'
    rw [List.mem_toFinset]
    exact List.mem_of_mem_filter hx'.1
  · have hbn : (subset_present_gribnames A M true).toList.map basename
        = (subset_present_gribnames A M true).toList := by
      have hfix : ∀ x ∈ (subset_present_gribnames A M true).toList, basename x = x := by
        intro x hx
        rw [Finset.mem_toList, subset_present_gribnames_def] at hx
        have hx' := (Finset.mem_inter.mp hx).2
        rw [List.mem_toFinset, List.mem_map] at hx'
        obtain ⟨a, _, rfl⟩ := hx'
        exact basename_idem a
      calc (subset_present_gribnames A M true).toList.map basename
          = (subset_present_gribnames A M true).toList.map id :=
            List.map_congr_left hfix
        _ = (subset_present_gribnames A M true).toList := List.map_id _
    rw [subset_present_gribnames_def, hbn, Finset.toList_toFinset,
      subset_present_gribnames_def, ← Finset.inter_assoc, Finset.inter_self]

theorem pyDictKeys_of_nodup (l : List String) (h : l.Nodup) : pyDictKeys l = l := by
  have key : ∀ (l acc : List String), l.Nodup → (∀ x ∈ l, x ∉ acc) →
      List.foldl (fun acc v => if v ∈ acc then acc else acc ++ [v]) acc l = acc ++ l := by
    intro l
    induction l with
    | nil => intro acc _ _; simp
    | cons v l ih =>
      intro acc hnd hdisj
      rw [List.foldl_cons, if_neg (hdisj v (List.mem_cons_self v l))]
      rw [ih (acc ++ [v]) (List.nodup_cons.mp hnd).2 ?_]
      · simp
      · intro x hx
        rw [List.mem_append, List.mem_singleton]
        rintro (hx' | rfl)
        · exact hdisj x (List.mem_cons_of_mem v hx) hx'
        · exact (List.nodup_cons.mp hnd).1 hx
  rw [pyDictKeys, key l [] h (by simp), List.nil_append]

theorem read_no_levels (doc : List (String × VarSpec))
    (h : ∀ p ∈ doc, p.2.levels = none) :
    read_variables_from_yaml doc = Except.ok (doc.map Prod.fst) := by
  induction doc with
  | nil => rfl
  | cons p doc ih =>
    obtain ⟨v, spec⟩ := p
    have hl : spec.levels = none := h (v, spec) (List.mem_cons_self _ doc)
    simp only [read_variables_from_yaml, hl]
    rw [ih (fun q hq => h q (List.mem_cons_of_mem _ hq))]
    simp

/-- C8: writing a duplicate-free list of variable names as a variable-set
document and reading any reordering of it back yields exactly the same set
of names. -/
theorem variables_yaml_roundtrip (cfnames : List String) (doc : List (String × VarSpec))
    (hnd : cfnames.Nodup) (hperm : doc.Perm (write_variables_to_yaml cfnames)) :
    read_variables_from_yaml doc = Except.ok (doc.map Prod.fst)
    ∧ (doc.map Prod.fst).toFinset = cfnames.toFinset := by
  have hall : ∀ p ∈ doc, p.2.levels = none := by
    intro p hp
    have hp' : p ∈ write_variables_to_yaml cfnames := hperm.mem_iff.mp hp
    rw [write_variables_to_yaml, List.mem_map] at hp'
    obtain ⟨v, _, rfl⟩ := hp'
    rfl
  refine ⟨read_no_levels doc hall, ?_⟩
  have hw : (write_variables_to_yaml cfnames).map Prod.fst = cfnames := by
    rw [write_variables_to_yaml, List.map_map]
    rw [show (Prod.fst ∘ fun v => (v, (⟨none, none⟩ : VarSpec))) = id from rfl]
    rw [List.map_id, pyDictKeys_of_nodup cfnames hnd]
  rw [← hw]
  exact List.toFinset_eq_of_perm _ _ (hperm.map Prod.fst)

/-- C8 witness: the three-name scenario, written and read back unchanged. -/
theorem variables_yaml_roundtrip_witness :
    read_variables_from_yaml (write_variables_to_yaml ["air_pressure_at_sea_level",
        "air_temperature_at_2_metres", "air_temperature_at_10_metres"])
      = Except.ok ((write_variables_to_yaml ["air_pressure_at_sea_level",
        "air_temperature_at_2_metres", "air_temperature_at_10_metres"]).map Prod.fst)
    ∧ ((write_variables_to_yaml ["air_pressure_at_sea_level",
        "air_temperature_at_2_metres", "air_temperature_at_10_metres"]).map Prod.fst).toFinset
      = (["air_pressure_at_sea_level", "air_temperature_at_2_metres",
        "air_temperature_at_10_metres"] : List String).toFinset :=
  variables_yaml_roundtrip
    ["air_pressure_at_sea_level", "air_temperature_at_2_metres", "air_temperature_at_10_metres"]
    (write_variables_to_yaml ["air_pressure_at_sea_level", "air_temperature_at_2_metres",
      "air_temperature_at_10_metres"])
    (by decide) (List.Perm.refl _)

/-- C9: `str_to_timedelta` handles "3d", "3h" and "3m" as three days, hours
and minutes, but "3s" raises instead of yielding three seconds: the final
branch of the source repeats the "h" test instead of testing "s",
contradicting the function's own docstring ("3s -> 3 seconds"). -/
theorem str_to_timedelta_units :
    str_to_timedelta "3d" = Except.ok 259200
    ∧ str_to_timedelta "3h" = Except.ok 10800
    ∧ str_to_timedelta "3m" = Except.ok 180
    ∧ str_to_timedelta "3s" = Except.error "Could not infer the format of the date 3s" := by
  refine ⟨?_, ?_, ?_, ?_⟩ <;> decide

end Mera
